import Mathlib

/-!
Shallow embedding of the TeraBox relay service (src/index.js, second service
variant: the one with four lookup strategies, an error-details array, a
health endpoint and the query-form share-id pattern).

JavaScript values reaching the helpers are modelled by `JVal`
(undefined, null, booleans, exact integers and strings); fallible code is
modelled with `Except`/`Option`; the network and the JSON.parse builtin are
oracle parameters.
-/

deriving instance DecidableEq for Except

/-- Model of the JavaScript values that flow through the service's helpers. -/
inductive JVal where
  | vUndef
  | vNull
  | vBool (b : Bool)
  | vInt (n : Int)
  | vStr (s : String)
deriving DecidableEq, Repr

/-- JavaScript truthiness for the modelled values. -/
def jsTruthy : JVal → Bool
  | .vUndef => false
  | .vNull => false
  | .vBool b => b
  | .vInt n => decide (n ≠ 0)
  | .vStr s => decide (s ≠ "")

/-- The JavaScript `a || b` operator on modelled values. -/
def jsOr (a b : JVal) : JVal := if jsTruthy a then a else b

/-- JavaScript `String(v)` on modelled values. -/
def jsToString : JVal → String
  | .vUndef => "undefined"
  | .vNull => "null"
  | .vBool true => "true"
  | .vBool false => "false"
  | .vInt n => toString n
  | .vStr s => s

/-- ASCII fragment of the JavaScript whitespace class. -/
def isJsWs (c : Char) : Bool :=
  c == ' ' || c == '\t' || c == '\n' || c == '\r' || c == '\x0b' || c == '\x0c'

/-- Value of a nonempty string of decimal digits. -/
def decValOf (ds : List Char) : Nat :=
  ds.foldl (fun a c => a * 10 + (c.toNat - 48)) 0

def isHexDigit (c : Char) : Bool :=
  c.isDigit || ('a' ≤ c && c ≤ 'f') || ('A' ≤ c && c ≤ 'F')

def hexDigitVal (c : Char) : Nat :=
  if c.isDigit then c.toNat - 48
  else if 'a' ≤ c && c ≤ 'f' then c.toNat - 87
  else c.toNat - 55

def hexValOf (ds : List Char) : Nat :=
  ds.foldl (fun a c => a * 16 + hexDigitVal c) 0

/-- Unsigned part of JavaScript `parseInt` with no radix argument:
an optional `0x`/`0X` prefix selects hexadecimal, then the longest digit
prefix is taken; no digits at all gives NaN, modelled as `none`. -/
def parseDigits : List Char → Option Nat
  | '0' :: 'x' :: rest =>
      let ds := rest.takeWhile isHexDigit
      if ds.isEmpty then none else some (hexValOf ds)
  | '0' :: 'X' :: rest =>
      let ds := rest.takeWhile isHexDigit
      if ds.isEmpty then none else some (hexValOf ds)
  | cs =>
      let ds := cs.takeWhile Char.isDigit
      if ds.isEmpty then none else some (decValOf ds)

/-- JavaScript `parseInt` on a string: leading whitespace skipped, optional
sign, then `parseDigits`; NaN is modelled as `none`. -/
def parseIntStr (s : String) : Option Int :=
  match s.data.dropWhile isJsWs with
  | '-' :: rest => (parseDigits rest).map (fun n => -(n : Int))
  | '+' :: rest => (parseDigits rest).map (fun n => (n : Int))
  | cs => (parseDigits cs).map (fun n => (n : Int))

/-- JavaScript `parseInt(v)` on a modelled value: the argument is first
converted with `String(v)` and then parsed.  For an integer the round trip
returns the integer itself; `null`, `undefined` and booleans stringify to
words with no digit prefix, hence NaN (`none`). -/
def jsParseInt : JVal → Option Int
  | .vInt n => some n
  | .vStr s => parseIntStr s
  | .vUndef => none
  | .vNull => none
  | .vBool _ => none

/-- Two-digit zero padding of a natural number below 100. -/
def pad2 (n : Nat) : String :=
  if n < 10 then "0" ++ toString n else toString n

/-- The running value of the `formatSize` division loop is always the exact
rational `b / 1024 ^ i` (dividing a float by 1024 only shifts its exponent),
so the loop state is tracked by the division count `i` alone.  The loop
condition `s >= 1024` is the exact integer comparison
`1024 ^ (i + 1) ≤ b`, and the guard `i < 4` bounds the loop by four
iterations, so any fuel of at least five runs the loop to completion. -/
def divLoopAux : Nat → Int → Nat → Nat
  | 0, _, i => i
  | fuel + 1, b, i =>
      if ((1024 ^ (i + 1) : Nat) : Int) ≤ b ∧ i < 4 then
        divLoopAux fuel b (i + 1)
      else i

/-- Number of `s /= 1024` divisions `formatSize` performs on input `b`. -/
def unitIndex (b : Int) : Nat := divLoopAux 5 b 0

/-- Numerator of `(a / den)` rounded to the nearest hundredth with ties going
up: `⌊(a / den) * 100 + 1 / 2⌋ = (200 * a + den) / (2 * den)` over ℕ. -/
def fixedNum (a den : Nat) : Nat := (200 * a + den) / (2 * den)

/-- JavaScript `(b / 1024 ^ i).toFixed(2)` on the exact value: the sign is
split off, the magnitude is rounded to the nearest hundredth (ties up) and
printed with exactly two decimal places. -/
def formatMag (b : Int) (i : Nat) : String :=
  let n := fixedNum b.natAbs (1024 ^ i)
  (if b < 0 then "-" else "") ++ toString (n / 100) ++ "." ++ pad2 (n % 100)

def sizeUnits : List String := ["B", "KB", "MB", "GB", "TB"]

/-- Embedding of `formatSize(bytes)` from src/index.js: falsy input gives "Unknown",
an unparseable input is returned as its string form, otherwise the value is
divided by 1024 while at least 1024 and fewer than four divisions happened,
and printed with two decimals and the reached unit. -/
def formatSize (bytes : JVal) : String :=
  if jsTruthy bytes = false then "Unknown"
  else
    match jsParseInt bytes with
    | none => jsToString bytes
    | some b =>
        let i := unitIndex b
        formatMag b i ++ " " ++ sizeUnits.getD i ""

example : formatSize (.vInt 1536) = "1.50 KB" := by decide
example : formatSize (.vInt 1073741824) = "1.00 GB" := by decide
example : formatSize (.vInt 0) = "Unknown" := by decide
example : formatSize .vNull = "Unknown" := by decide
example : formatSize (.vStr "abc") = "abc" := by decide
example : formatSize (.vInt (-5)) = "-5.00 B" := by decide

/-! ## URL parsing: `extractSurl` and `getBaseUrl` -/

/-- The character class `[a-zA-Z0-9_-]` of the share-id patterns. -/
def isSurlChar (c : Char) : Bool :=
  ('a' ≤ c && c ≤ 'z') || ('A' ≤ c && c ≤ 'Z') || ('0' ≤ c && c ≤ '9') ||
    c == '_' || c == '-'

/-- Whether a list starts with a character of the share-id class; this is
the requirement that `1?[a-zA-Z0-9_-]+` match at least one character (`1`
itself belongs to the class, so the capture of the group is exactly the
maximal class run). -/
def hasClassHead : List Char → Bool
  | [] => false
  | c :: _ => isSurlChar c

/-- First match of `/\/s\/(1?[a-zA-Z0-9_-]+)/i` over a character list: the
scanner looks for the earliest position where `/`, `s` (case-insensitive,
from the `i` flag) and `/` are followed by at least one class character and
returns the capture, the maximal class run after the second slash. -/
def findPathSurl : List Char → Option String
  | c1 :: c2 :: c3 :: rest =>
      if (c1 == '/' && (c2 == 's' || c2 == 'S') && c3 == '/') && hasClassHead rest then
        some (String.mk (rest.takeWhile isSurlChar))
      else findPathSurl (c2 :: c3 :: rest)
  | _ => none

/-- Case-insensitive character comparison used by the `i` regex flag. -/
def ciEq (a b : Char) : Bool := a.toLower == b.toLower

/-- First match of `/surl=(1?[a-zA-Z0-9_-]+)/i` over a character list. -/
def findQuerySurl : List Char → Option String
  | c1 :: c2 :: c3 :: c4 :: c5 :: rest =>
      if (ciEq c1 's' && ciEq c2 'u' && ciEq c3 'r' && ciEq c4 'l' && c5 == '=') &&
          hasClassHead rest then
        some (String.mk (rest.takeWhile isSurlChar))
      else findQuerySurl (c2 :: c3 :: c4 :: c5 :: rest)
  | _ => none

/-- Embedding of `extractSurl(url)` from src/index.js: the path-form pattern is tried
first, then the query-form pattern; if neither matches the function throws
`'Invalid TeraBox URL'`. -/
def extractSurl (url : String) : Except String String :=
  match findPathSurl url.data with
  | some s => .ok s
  | none =>
      match findQuerySurl url.data with
      | some s => .ok s
      | none => .error "Invalid TeraBox URL"

example : extractSurl "https://1024terabox.com/s/1abc123" = .ok "1abc123" := by decide
example : extractSurl "https://terabox.com/sharing/link?surl=xyz" = .ok "xyz" := by decide
example : extractSurl "https://example.com/nothing" = .error "Invalid TeraBox URL" := by decide
example : extractSurl "https://terabox.com/S/1abc" = .ok "1abc" := by decide
example : extractSurl "https://x.com/s/1tok?pwd=a" = .ok "1tok" := by decide

/-- Whether `needle` occurs as a contiguous substring, as JavaScript
`String.prototype.includes`. -/
def isInfixB (needle : List Char) : List Char → Bool
  | [] => needle.isEmpty
  | l@(_ :: rest) => needle.isPrefixOf l || isInfixB needle rest

/-- JavaScript `s.includes(sub)`. -/
def jsIncludes (s sub : String) : Bool := isInfixB sub.data s.data

/-- Embedding of `getBaseUrl(url)` from src/index.js: substring tests against known
vendor hosts in fixed priority order, with a default canonical base. -/
def getBaseUrl (url : String) : String :=
  if jsIncludes url "1024tera.com" then "https://www.1024tera.com"
  else if jsIncludes url "1024terabox.com" then "https://www.1024terabox.com"
  else if jsIncludes url "4funbox.com" then "https://www.4funbox.com"
  else if jsIncludes url "teraboxapp.com" then "https://www.teraboxapp.com"
  else "https://www.terabox.com"

example : getBaseUrl "https://www.1024terabox.com/s/1x" = "https://www.1024terabox.com" := by decide
example : getBaseUrl "https://4funbox.com/s/1x" = "https://www.4funbox.com" := by decide
example : getBaseUrl "hello" = "https://www.terabox.com" := by decide

/-! ## Upstream data model -/

/-- The `thumbs` object of an upstream file record. -/
structure Thumbs where
  url2 : Option String := none
  url3 : Option String := none
deriving DecidableEq, Repr

/-- An upstream file record as it appears in a vendor `list` array; absent
JSON fields are `vUndef`.  Entries of a parsed array that are not objects
are modelled by the all-absent record (every field access yields
`undefined` on them, exactly as in JavaScript). -/
structure FileRec where
  fs_id : JVal := .vUndef
  server_filename : JVal := .vUndef
  filename : JVal := .vUndef
  size : JVal := .vUndef
  isdir : JVal := .vUndef
  dlink : JVal := .vUndef
  thumbs : Option Thumbs := none
deriving DecidableEq, Repr

/-- Field access `f.thumbs?.url3` (and `url2`) with optional chaining. -/
def thumbsUrl3 : Option Thumbs → JVal
  | none => .vUndef
  | some t => match t.url3 with | none => .vUndef | some s => .vStr s

def thumbsUrl2 : Option Thumbs → JVal
  | none => .vUndef
  | some t => match t.url2 with | none => .vUndef | some s => .vStr s

/-- A normalized file entry as built by the strategies; fields a given
strategy does not set are `vUndef`. -/
structure FileEntry where
  fs_id : String
  filename : JVal
  size : JVal
  sizeFormatted : String
  isDir : JVal := .vUndef
  dlink : JVal
  thumb : JVal := .vUndef
deriving DecidableEq, Repr

/-- The session envelope carried through by the vendor-direct strategy. -/
structure ShareInfo where
  shareid : JVal
  uk : JVal
  sign : JVal
  timestamp : JVal
deriving DecidableEq, Repr

/-- The `resolutions` map of the mirror APIs; its presence makes it truthy. -/
structure Resolutions where
  fastDownload : JVal := .vUndef
  hdVideo : JVal := .vUndef
deriving DecidableEq, Repr

/-- Single-file payload shape produced by the mirror-API strategies. -/
structure SinglePayload where
  filename : JVal
  size : JVal
  sizeFormatted : String
  thumb : JVal
  downloadUrl : JVal
  resolutions : Option Resolutions
  fastDownload : JVal := .vUndef
  hdVideo : JVal := .vUndef
deriving DecidableEq, Repr

/-- The `data` field of a successful lookup result. -/
inductive Payload where
  | single (p : SinglePayload)
  | files (fs : List FileEntry) (shareInfo : Option ShareInfo)
deriving DecidableEq, Repr

/-- A strategy result object `{success, data, source}`. -/
structure StratResult where
  success : Bool
  data : Payload
  source : String
deriving DecidableEq, Repr

/-! ## Mirror-API strategies -/

/-- The JSON body a mirror API answers with; absent fields are `vUndef`.
A falsy `response.data` is modelled by `none`. -/
structure ApiData where
  file_name : JVal := .vUndef
  size : JVal := .vUndef
  sizebytes : JVal := .vUndef
  thumb : JVal := .vUndef
  download_link : JVal := .vUndef
  dlink : JVal := .vUndef
  resolutions : Option Resolutions := none
deriving DecidableEq, Repr

/-- Field access `data.resolutions?.['Fast Download'] || null`. -/
def resFastDownload : Option Resolutions → JVal
  | none => .vUndef
  | some r => r.fastDownload

def resHdVideo : Option Resolutions → JVal
  | none => .vUndef
  | some r => r.hdVideo

/-- Embedding of `tryNepCoderApi(url)` from src/index.js, as a function of the mirror's
response body (the network call is the oracle input). -/
def tryNepCoderApi (resp : Option ApiData) : Except String StratResult :=
  match resp with
  | none => .error "Empty response"
  | some d =>
      if jsTruthy d.file_name || d.resolutions.isSome || jsTruthy d.download_link then
        .ok { success := true
              data := .single {
                filename := jsOr d.file_name (.vStr "Unknown")
                size := jsOr d.size (jsOr d.sizebytes (.vInt 0))
                sizeFormatted := formatSize (jsOr d.size d.sizebytes)
                thumb := jsOr d.thumb .vNull
                downloadUrl := jsOr d.download_link (jsOr d.dlink .vNull)
                resolutions := d.resolutions
                fastDownload := jsOr (resFastDownload d.resolutions) .vNull
                hdVideo := jsOr (resHdVideo d.resolutions) .vNull }
              source := "nepcoderdevs" }
      else .error "Invalid response format"

/-- Embedding of `tryUdayApi(url)` from src/index.js, as a function of the mirror's
response body. -/
def tryUdayApi (resp : Option ApiData) : Except String StratResult :=
  match resp with
  | none => .error "Empty response"
  | some d =>
      if jsTruthy d.file_name || jsTruthy d.download_link then
        .ok { success := true
              data := .single {
                filename := jsOr d.file_name (.vStr "Unknown")
                size := jsOr d.size (.vInt 0)
                sizeFormatted := formatSize d.size
                thumb := jsOr d.thumb .vNull
                downloadUrl := jsOr d.download_link (jsOr d.dlink .vNull)
                resolutions := d.resolutions }
              source := "udayscripts" }
      else .error "Invalid response format"

/-! ## Vendor-direct strategy -/

/-- Body of the vendor `shorturlinfo` call. -/
structure InfoData where
  errno : JVal := .vUndef
  errmsg : JVal := .vUndef
  shareid : JVal := .vUndef
  uk : JVal := .vUndef
  sign : JVal := .vUndef
  timestamp : JVal := .vUndef
deriving DecidableEq, Repr

/-- Body of the vendor `share/list` call; a missing or null `list` field is
`none` (`listRes.data.list || []` supplies the empty default). -/
structure ListData where
  errno : JVal := .vUndef
  errmsg : JVal := .vUndef
  list : Option (List FileRec) := none
deriving DecidableEq, Repr

/-- The per-record mapping of `tryDirectApi`. -/
def mapDirectFile (f : FileRec) : FileEntry :=
  { fs_id := jsToString f.fs_id
    filename := f.server_filename
    size := f.size
    sizeFormatted := formatSize f.size
    isDir := .vBool (f.isdir = .vInt 1)
    dlink := jsOr f.dlink .vNull
    thumb := jsOr (jsOr (thumbsUrl3 f.thumbs) (thumbsUrl2 f.thumbs)) .vNull }

/-- Embedding of `tryDirectApi(url)` from src/index.js, as a function of the two vendor
response bodies (both network calls are oracle inputs). -/
def tryDirectApi (info : InfoData) (listd : ListData) : Except String StratResult :=
  if info.errno ≠ .vInt 0 then
    .error ("Share info error: " ++ jsToString (jsOr info.errmsg info.errno))
  else
    let shareInfo : ShareInfo :=
      { shareid := info.shareid, uk := info.uk, sign := info.sign,
        timestamp := info.timestamp }
    if listd.errno ≠ .vInt 0 then
      .error ("File list error: " ++ jsToString (jsOr listd.errmsg listd.errno))
    else
      let files := (listd.list.getD []).map mapDirectFile
      if files.length = 0 then .error "No files found"
      else .ok { success := true, data := .files files (some shareInfo), source := "direct" }

example :
    tryDirectApi { errno := .vInt 0 } { errno := .vInt 0, list := some [] } =
      .error "No files found" := by decide
example :
    tryDirectApi { errno := .vInt 2 } { errno := .vInt 0 } =
      .error "Share info error: 2" := by decide

/-! ## Page-scrape strategy -/

/-- Drop the ASCII `\s*` run. -/
def wsDrop (cs : List Char) : List Char := cs.dropWhile isJsWs

/-- If `cs` starts with the literal `key` followed by `\s*:\s*`, return
what comes after; otherwise fail.  This is the shared front of all the
scrape regexes, anchored at the current scan position. -/
def afterKey (key : List Char) (cs : List Char) : Option (List Char) :=
  if key.isPrefixOf cs then
    match wsDrop (cs.drop key.length) with
    | ':' :: rest => some (wsDrop rest)
    | _ => none
  else none

/-- Lookahead `(?=\s*[,}])` of the list regex. -/
def lookaheadOk (cs : List Char) : Bool :=
  match wsDrop cs with
  | ',' :: _ => true
  | '}' :: _ => true
  | _ => false

/-- The lazy part `[\s\S]*?\]` under the lookahead: scanning left to right,
the capture ends at the first `]` whose remainder satisfies the lookahead
(laziness takes the shortest body; a `]` failing the lookahead is swallowed
into the body and scanning continues). -/
def lazyBracket : List Char → Option (List Char × List Char)
  | [] => none
  | ']' :: rest =>
      if lookaheadOk rest then some ([], rest)
      else
        match lazyBracket rest with
        | some (cap, r) => some (']' :: cap, r)
        | none => none
  | c :: rest =>
      match lazyBracket rest with
      | some (cap, r) => some (c :: cap, r)
      | none => none

def listKey : List Char := "\"list\"".data

/-- The list regex `/"list"\s*:\s*(\[[\s\S]*?\])(?=\s*[,}])/` anchored at
the current position: the capture is the bracketed text. -/
def listMatchAt (cs : List Char) : Option (List Char) :=
  match afterKey listKey cs with
  | some ('[' :: rest2) =>
      match lazyBracket rest2 with
      | some (content, _) => some ('[' :: (content ++ [']']))
      | none => none
  | _ => none

/-- First match of the list regex over the page. -/
def findListMatch : List Char → Option (List Char)
  | [] => none
  | l@(_ :: rest) =>
      match listMatchAt l with
      | some cap => some cap
      | none => findListMatch rest

/-- Quoted capture `"([^"]+)"` anchored at the current position: a nonempty
run of non-quote characters between two quotes. -/
def quotedAt (cs : List Char) : Option (List Char) :=
  match cs with
  | '"' :: rest =>
      let cap := rest.takeWhile (fun c => c ≠ '"')
      match rest.dropWhile (fun c => c ≠ '"') with
      | '"' :: _ => if cap.isEmpty then none else some cap
      | _ => none
  | _ => none

/-- Digit capture `(\d+)` anchored at the current position. -/
def digitsAt (cs : List Char) : Option (List Char) :=
  let ds := cs.takeWhile Char.isDigit
  if ds.isEmpty then none else some ds

/-- First match of `/"<key>"\s*:\s*"([^"]+)"/` over the page. -/
def findKeyQuoted (key : List Char) : List Char → Option (List Char)
  | [] => none
  | l@(_ :: rest) =>
      match (afterKey key l).bind quotedAt with
      | some cap => some cap
      | none => findKeyQuoted key rest

/-- First match of `/"<key>"\s*:\s*(\d+)/` over the page. -/
def findKeyDigits (key : List Char) : List Char → Option (List Char)
  | [] => none
  | l@(_ :: rest) =>
      match (afterKey key l).bind digitsAt with
      | some cap => some cap
      | none => findKeyDigits key rest

def fnKey : List Char := "\"server_filename\"".data
def fsKey : List Char := "\"fs_id\"".data
def sizeKey : List Char := "\"size\"".data
def dlinkKey : List Char := "\"dlink\"".data

/-- Backslash stripping `.replace(/\\/g, '')`. -/
def stripBackslash (cs : List Char) : List Char := cs.filter (fun c => c ≠ '\\')

/-- The per-record mapping of the list branch of `tryPageScrape`. -/
def mapScrapeFile (f : FileRec) : FileEntry :=
  { fs_id := jsToString f.fs_id
    filename := jsOr f.server_filename f.filename
    size := f.size
    sizeFormatted := formatSize f.size
    dlink := jsOr f.dlink .vNull
    thumb := jsOr (thumbsUrl3 f.thumbs) .vNull }

/-- The `dlink` field of the single-file branch of `tryPageScrape`:
backslashes stripped from the capture, `null` when the regex did not match. -/
def scrapeDlink (html : String) : JVal :=
  match findKeyQuoted dlinkKey html.data with
  | some cap => .vStr (String.mk (stripBackslash cap))
  | none => .vNull

/-- The successful single-file result object built by `tryPageScrape` from
its filename and id captures: backslashes stripped from the filename,
`size` defaulting to 0 and `sizeFormatted` to 'Unknown' when the size regex
did not match. -/
def scrapeSingleOk (html : String) (fnCap fsCap : List Char) : StratResult :=
  { success := true
    data := .files
      [{ fs_id := String.mk fsCap
         filename := .vStr (String.mk (stripBackslash fnCap))
         size := match findKeyDigits sizeKey html.data with
           | some ds => .vInt (decValOf ds)
           | none => .vInt 0
         sizeFormatted := match findKeyDigits sizeKey html.data with
           | some ds => formatSize (.vInt (decValOf ds))
           | none => "Unknown"
         dlink := scrapeDlink html }] none
    source := "scrape" }

/-- The single-file tail of `tryPageScrape`: independent regexes for
filename, numeric id, size and download link; succeeds exactly when
filename and id both matched. -/
def tryPageScrapeSingle (html : String) : Except String StratResult :=
  match findKeyQuoted fnKey html.data, findKeyDigits fsKey html.data with
  | some fnCap, some fsCap => .ok (scrapeSingleOk html fnCap fsCap)
  | _, _ => .error "Could not extract data from page"

/-- Embedding of `tryPageScrape(url)` from src/index.js, as a function of the fetched
page body; `jsonParse` is the `JSON.parse` builtin as an oracle (`none`
models a throw).  A parse failure raises `'Parse error'`; a parsed but
empty list falls through to the single-file tail. -/
def tryPageScrape (jsonParse : String → Option (List FileRec)) (html : String) :
    Except String StratResult :=
  if jsIncludes html "verify" || jsIncludes html "验证" then
    .error "Verification required"
  else
    match findListMatch html.data with
    | some cap =>
        match jsonParse (String.mk cap) with
        | none => .error "Parse error"
        | some list =>
            let files := list.map mapScrapeFile
            if 0 < files.length then
              .ok { success := true, data := .files files none, source := "scrape" }
            else tryPageScrapeSingle html
    | none => tryPageScrapeSingle html

/-! ## Fallback orchestrator -/

/-- Outcome of one strategy invocation as the orchestrator's `try` block
observes it: either a thrown error message or a returned result object. -/
inductive Attempt where
  | raises (msg : String)
  | returns (r : StratResult)
deriving DecidableEq, Repr

/-- The successful result of an attempt, if any: a returned result object
flagged `success`. -/
def Attempt.succeeds : Attempt → Option StratResult
  | .raises _ => none
  | .returns r => if r.success then some r else none

/-- One `try { ... } catch (e) { errors.push(tag + e.message) }` block of
`getTeraboxData`: a raised error appends its tagged message, a returned
result is delivered when flagged successful and silently dropped
otherwise. -/
def tryStep (tag : String) (o : Attempt) (errors : List String) :
    Option StratResult × List String :=
  match o with
  | .raises m => (none, errors ++ [tag ++ m])
  | .returns r => (if r.success then some r else none, errors)

/-- Result of `getTeraboxData`: a successful strategy result, or the object
`{success:false, error, details}` on exhaustion. -/
inductive OrchOutcome where
  | ok (r : StratResult)
  | failed (error : String) (details : List String)
deriving DecidableEq, Repr

/-- Embedding of `getTeraboxData(shareUrl)` from src/index.js, as a function of the four
strategy outcomes: strategies run in fixed order API1, API2, Direct,
Scrape; the first successful result is returned; exhaustion returns
`'All methods failed'` with the collected details. -/
def getTeraboxData (o1 o2 o3 o4 : Attempt) : OrchOutcome :=
  let e0 : List String := []
  match tryStep "API1: " o1 e0 with
  | (some r, _) => .ok r
  | (none, e1) =>
      match tryStep "API2: " o2 e1 with
      | (some r, _) => .ok r
      | (none, e2) =>
          match tryStep "Direct: " o3 e2 with
          | (some r, _) => .ok r
          | (none, e3) =>
              match tryStep "Scrape: " o4 e3 with
              | (some r, _) => .ok r
              | (none, e4) => .failed "All methods failed" e4

/-! ## HTTP facade -/

/-- JSON body sent by the `/api/get` handler: either the short
`{success:false, error}` object built in the handler itself, or the
orchestrator's result passed to `res.json` unchanged. -/
inductive ApiBody where
  | simpleError (error : String)
  | fromOrch (o : OrchOutcome)
deriving DecidableEq, Repr

/-- The `success` flag carried by every body the handler can send. -/
def bodySuccess : ApiBody → Bool
  | .simpleError _ => false
  | .fromOrch (.ok r) => r.success
  | .fromOrch (.failed _ _) => false

/-- An HTTP response; `res.json` never sets a status, so Express sends
200. -/
structure HttpResponse where
  status : Nat
  body : ApiBody
deriving DecidableEq, Repr

/-- How the awaited `getTeraboxData(url)` call ends: normally with an
orchestrator outcome, or by throwing (network-layer failures). -/
inductive ReqOutcome where
  | completes (o : OrchOutcome)
  | throwsMsg (msg : String)
deriving DecidableEq, Repr

/-- The `/api/get` handler from src/index.js as a function of the `url`
query parameter and of what the orchestrator call would do; the boolean
records whether the orchestrator was invoked.  A missing or empty `url` is
falsy and short-circuits before the `try` block. -/
def apiGetHandler (url : Option String) (run : ReqOutcome) : HttpResponse × Bool :=
  match url with
  | none => ({ status := 200, body := .simpleError "URL parameter required" }, false)
  | some u =>
      if u = "" then
        ({ status := 200, body := .simpleError "URL parameter required" }, false)
      else
        match run with
        | .completes o => ({ status := 200, body := .fromOrch o }, true)
        | .throwsMsg m => ({ status := 200, body := .simpleError m }, true)

/-! ## Lemmas about the formatSize division loop -/

theorem divLoopAux_le (fuel : Nat) : ∀ (b : Int) (i : Nat), divLoopAux fuel b i ≤ max i 4 := by
  induction fuel with
  | zero => intro b i; simp [divLoopAux]
  | succ n ih =>
      intro b i
      rw [divLoopAux]
      split
      next h =>
        refine le_trans (ih b (i + 1)) ?_
        have : i + 1 ≤ 4 := h.2
        omega
      next => omega

theorem unitIndex_le (b : Int) : unitIndex b ≤ 4 := by
  have := divLoopAux_le 5 b 0
  simpa [unitIndex] using this

/-- Rounded-hundredths numerator bounds: `fixedNum a den` is within half a
hundredth (after scaling by 100) of the exact magnitude `a / den`. -/
theorem fixedNum_bounds (a den : Nat) (hden : 0 < den) :
    (fixedNum a den : ℚ) ≤ (a : ℚ) / (den : ℚ) * 100 + 1 / 2 ∧
      (a : ℚ) / (den : ℚ) * 100 ≤ (fixedNum a den : ℚ) + 1 / 2 := by
  have h2D : 0 < 2 * den := by omega
  have h1 : fixedNum a den * (2 * den) ≤ 200 * a + den := Nat.div_mul_le_self _ _
  have h2 : 200 * a + den < (fixedNum a den + 1) * (2 * den) := by
    have hdm := Nat.div_add_mod (200 * a + den) (2 * den)
    have hmod := Nat.mod_lt (200 * a + den) h2D
    calc 200 * a + den
        = 2 * den * ((200 * a + den) / (2 * den)) + (200 * a + den) % (2 * den) := hdm.symm
      _ < 2 * den * ((200 * a + den) / (2 * den)) + 2 * den := Nat.add_lt_add_left hmod _
      _ = ((200 * a + den) / (2 * den) + 1) * (2 * den) := by ring
  have hq : (0 : ℚ) < (den : ℚ) := by exact_mod_cast hden
  have h1q : (fixedNum a den : ℚ) * (2 * den) ≤ 200 * a + den := by exact_mod_cast h1
  have h2q : (200 : ℚ) * a + den < ((fixedNum a den : ℚ) + 1) * (2 * den) := by exact_mod_cast h2
  constructor
  · have hstep : (fixedNum a den : ℚ) ≤ (200 * (a : ℚ) + den) / (2 * den) := by
      rw [le_div_iff₀ (by positivity)]
      linarith
    calc (fixedNum a den : ℚ) ≤ (200 * (a : ℚ) + den) / (2 * den) := hstep
      _ = (a : ℚ) / den * 100 + 1 / 2 := by field_simp; ring
  · have hstep : (200 * (a : ℚ) + den) / (2 * den) ≤ (fixedNum a den : ℚ) + 1 := by
      rw [div_le_iff₀ (by positivity)]
      linarith
    have heq : (a : ℚ) / den * 100 = (200 * (a : ℚ) + den) / (2 * den) - 1 / 2 := by
      field_simp
      ring
    rw [heq]
    linarith

/-- C4: formatSize returns the literal "Unknown" for every falsy input
(including 0 and null), returns the input's string form unchanged for every
truthy input not parseable as an integer, and otherwise divides by 1024 at
most 4 times (`unitIndex b ≤ 4`, units indexed into B, KB, MB, GB, TB) and
formats the magnitude `b / 1024 ^ unitIndex b` to exactly two decimal
places (the printed numerator is within half a hundredth of the exact
scaled magnitude) followed by the unit; in particular
formatSize(1536) = "1.50 KB" and formatSize(1073741824) = "1.00 GB". -/
theorem formatSize_spec :
    (∀ v, jsTruthy v = false → formatSize v = "Unknown") ∧
    (∀ v, jsTruthy v = true → jsParseInt v = none → formatSize v = jsToString v) ∧
    (∀ b : Int, b ≠ 0 →
      unitIndex b ≤ 4 ∧
      formatSize (.vInt b) =
        (if b < 0 then "-" else "") ++
          toString (fixedNum b.natAbs (1024 ^ unitIndex b) / 100) ++ "." ++
          pad2 (fixedNum b.natAbs (1024 ^ unitIndex b) % 100) ++ " " ++
          sizeUnits.getD (unitIndex b) "" ∧
      (fixedNum b.natAbs (1024 ^ unitIndex b) : ℚ) ≤
          |(b : ℚ)| / 1024 ^ unitIndex b * 100 + 1 / 2 ∧
      |(b : ℚ)| / 1024 ^ unitIndex b * 100 ≤
          (fixedNum b.natAbs (1024 ^ unitIndex b) : ℚ) + 1 / 2) ∧
    (formatSize (.vInt 1536) = "1.50 KB" ∧ formatSize (.vInt 1073741824) = "1.00 GB" ∧
      formatSize (.vInt 0) = "Unknown" ∧ formatSize .vNull = "Unknown") := by
  refine ⟨?_, ?_, ?_, by decide, by decide, by decide, by decide⟩
  · intro v h
    simp [formatSize, h]
  · intro v h1 h2
    simp [formatSize, h1, h2]
  · intro b hb
    have habs : |(b : ℚ)| = (b.natAbs : ℚ) := by
      rw [Int.cast_natAbs, Int.cast_abs]
    have hpow : ((1024 ^ unitIndex b : ℕ) : ℚ) = (1024 : ℚ) ^ unitIndex b := by
      push_cast
      ring
    obtain ⟨hle, hge⟩ :=
      fixedNum_bounds b.natAbs (1024 ^ unitIndex b) (pow_pos (by norm_num) _)
    have ht : jsTruthy (.vInt b) = true := by simp [jsTruthy, hb]
    refine ⟨unitIndex_le b, ?_, ?_, ?_⟩
    · simp [formatSize, ht, jsParseInt, formatMag]
    · rw [habs, ← hpow]
      exact hle
    · rw [habs, ← hpow]
      exact hge

/-- C4 witness: the hypotheses of `formatSize_spec` are satisfiable, at the
falsy input 0, the unparseable input "abc" and the integer input 1536. -/
theorem formatSize_spec_witness :
    formatSize (.vInt 0) = "Unknown" ∧
    formatSize (.vStr "abc") = jsToString (.vStr "abc") ∧
    (unitIndex 1536 ≤ 4 ∧
      formatSize (.vInt 1536) =
        (if (1536 : Int) < 0 then "-" else "") ++
          toString (fixedNum (Int.natAbs 1536) (1024 ^ unitIndex 1536) / 100) ++ "." ++
          pad2 (fixedNum (Int.natAbs 1536) (1024 ^ unitIndex 1536) % 100) ++ " " ++
          sizeUnits.getD (unitIndex 1536) "" ∧
      (fixedNum (Int.natAbs 1536) (1024 ^ unitIndex 1536) : ℚ) ≤
          |((1536 : Int) : ℚ)| / 1024 ^ unitIndex 1536 * 100 + 1 / 2 ∧
      |((1536 : Int) : ℚ)| / 1024 ^ unitIndex 1536 * 100 ≤
          (fixedNum (Int.natAbs 1536) (1024 ^ unitIndex 1536) : ℚ) + 1 / 2) :=
  ⟨formatSize_spec.1 (.vInt 0) (by decide),
   formatSize_spec.2.1 (.vStr "abc") (by decide) (by decide),
   formatSize_spec.2.2.1 1536 (by decide)⟩

/-- C10: for every negative integer input the division loop never runs
(`unitIndex b = 0`), and formatSize prints the signed value to two decimal
places with the unit "B"; in particular formatSize(-5) = "-5.00 B". -/
theorem formatSize_negative :
    (∀ b : Int, b < 0 →
        unitIndex b = 0 ∧
        formatSize (.vInt b) = "-" ++ toString b.natAbs ++ ".00 B") ∧
    formatSize (.vInt (-5)) = "-5.00 B" := by
  constructor
  · intro b hb
    have hui : unitIndex b = 0 := by
      rw [unitIndex, divLoopAux, if_neg]
      rintro ⟨hc, -⟩
      have hval : ((1024 ^ (0 + 1) : ℕ) : Int) = 1024 := by norm_num
      omega
    refine ⟨hui, ?_⟩
    have hb0 : b ≠ 0 := by omega
    have ht : jsTruthy (.vInt b) = true := by simp [jsTruthy, hb0]
    have hfix : fixedNum b.natAbs 1 = 100 * b.natAbs := by
      simp [fixedNum]
      omega
    have hdiv : 100 * b.natAbs / 100 = b.natAbs := by omega
    have hmod : 100 * b.natAbs % 100 = 0 := by omega
    have hp : pad2 0 = "00" := by decide
    simp [formatSize, ht, jsParseInt, formatMag, hui, hb, sizeUnits]
    apply String.ext
    simp [String.data_append, hfix, hdiv, hmod, hp]
  · decide

/-- C10 witness: `formatSize_negative` instantiated at the input -7. -/
theorem formatSize_negative_witness :
    unitIndex (-7) = 0 ∧
    formatSize (.vInt (-7)) = "-" ++ toString (Int.natAbs (-7)) ++ ".00 B" :=
  formatSize_negative.1 (-7) (by decide)

/-! ## Lemmas about the share-id scanners -/

theorem isSurlChar_ne_slash {c : Char} (h : isSurlChar c = true) : (c == '/') = false := by
  cases heq : c == '/' with
  | false => rfl
  | true =>
      have hce : c = '/' := eq_of_beq heq
      subst hce
      exact absurd h (by decide)

theorem takeWhile_all : ∀ (t suffix : List Char),
    (∀ c ∈ t, isSurlChar c = true) →
    (∀ c, suffix.head? = some c → isSurlChar c = false) →
    (t ++ suffix).takeWhile isSurlChar = t := by
  intro t
  induction t with
  | nil =>
      intro suffix _ hs
      cases suffix with
      | nil => rfl
      | cons c cs => simp [List.takeWhile_cons, hs c rfl]
  | cons c cs ih =>
      intro suffix ht hs
      simp only [List.cons_append, List.takeWhile_cons, ht c (List.mem_cons_self c cs)]
      simp [ih suffix (fun x hx => ht x (List.mem_cons_of_mem c hx)) hs]

theorem takeWhile_self_all (l : List Char) (h : ∀ c ∈ l, isSurlChar c = true) :
    l.takeWhile isSurlChar = l := by
  have := takeWhile_all l [] h (by intro c hc; simp at hc)
  simpa using this

theorem findPathSurl_skip (c1 c2 c3 : Char) (rest : List Char)
    (h : (c1 == '/' && (c2 == 's' || c2 == 'S') && c3 == '/') = false) :
    findPathSurl (c1 :: c2 :: c3 :: rest) = findPathSurl (c2 :: c3 :: rest) := by
  rw [findPathSurl]
  simp [h]

theorem findPathSurl_hit (rest : List Char) (h : hasClassHead rest = true) :
    findPathSurl ('/' :: 's' :: '/' :: rest) =
      some (String.mk (rest.takeWhile isSurlChar)) := by
  have hf : (('/' == '/' : Bool) && (('s' == 's' : Bool) || ('s' == 'S' : Bool)) &&
      ('/' == '/' : Bool)) = true := by decide
  rw [findPathSurl]
  simp [hf, h]

theorem findPathSurl_none_noslash :
    ∀ (l : List Char), (∀ c ∈ l, (c == '/') = false) → findPathSurl l = none
  | [], _ => rfl
  | [_], _ => rfl
  | [_, _], _ => rfl
  | c1 :: c2 :: c3 :: rest, h => by
      rw [findPathSurl_skip c1 c2 c3 rest (by simp [h c1 (List.mem_cons_self c1 _)])]
      exact findPathSurl_none_noslash (c2 :: c3 :: rest)
        (fun x hx => h x (List.mem_cons_of_mem c1 hx))

theorem findQuerySurl_skip (c1 c2 c3 c4 c5 : Char) (rest : List Char)
    (h : (ciEq c1 's' && ciEq c2 'u' && ciEq c3 'r' && ciEq c4 'l' && c5 == '=') = false) :
    findQuerySurl (c1 :: c2 :: c3 :: c4 :: c5 :: rest) =
      findQuerySurl (c2 :: c3 :: c4 :: c5 :: rest) := by
  rw [findQuerySurl]
  simp [h]

theorem findQuerySurl_hit (rest : List Char) (h : hasClassHead rest = true) :
    findQuerySurl ('s' :: 'u' :: 'r' :: 'l' :: '=' :: rest) =
      some (String.mk (rest.takeWhile isSurlChar)) := by
  rw [findQuerySurl]
  simp +decide [h]

theorem extractSurl_eq_path (url s : String) (h : findPathSurl url.data = some s) :
    extractSurl url = .ok s := by
  simp [extractSurl, h]

theorem extractSurl_eq_query (url s : String) (h1 : findPathSurl url.data = none)
    (h2 : findQuerySurl url.data = some s) : extractSurl url = .ok s := by
  simp [extractSurl, h1, h2]

theorem extractSurl_eq_err (url : String) (h1 : findPathSurl url.data = none)
    (h2 : findQuerySurl url.data = none) :
    extractSurl url = .error "Invalid TeraBox URL" := by
  simp [extractSurl, h1, h2]

/-- C5: extractSurl applies the path-form pattern first and then the
query-form pattern, returning the first capture group matched by either
(the capture is the maximal class run after the anchor, so an optional
leading literal "1" is included); every URL `…/s/<token>` whose token is a
nonempty class run not extended by what follows yields that token, every
query URL `…?surl=<token>` with no path-form match yields its token, and a
URL matching neither pattern raises the invalid-link error. -/
theorem extractSurl_spec :
    (∀ url s, findPathSurl url.data = some s → extractSurl url = .ok s) ∧
    (∀ url s, findPathSurl url.data = none → findQuerySurl url.data = some s →
        extractSurl url = .ok s) ∧
    (∀ url, findPathSurl url.data = none → findQuerySurl url.data = none →
        extractSurl url = .error "Invalid TeraBox URL") ∧
    (∀ t suffix : List Char, t ≠ [] → (∀ c ∈ t, isSurlChar c = true) →
        (∀ c, suffix.head? = some c → isSurlChar c = false) →
        extractSurl (String.mk ("https://terabox.com/s/".data ++ t ++ suffix)) =
          .ok (String.mk t)) ∧
    (∀ t : List Char, t ≠ [] → (∀ c ∈ t, isSurlChar c = true) →
        extractSurl (String.mk ("https://terabox.com/sharing/link?surl=".data ++ t)) =
          .ok (String.mk t)) ∧
    (extractSurl "https://1024terabox.com/s/1abc123" = .ok "1abc123" ∧
      extractSurl "https://terabox.com/sharing/link?surl=xyz" = .ok "xyz" ∧
      extractSurl "https://example.com/nothing" = .error "Invalid TeraBox URL") := by
  refine ⟨extractSurl_eq_path, extractSurl_eq_query, extractSurl_eq_err, ?_, ?_,
    by decide, by decide, by decide⟩
  · intro t suffix ht hall hsuf
    obtain ⟨c, t', rfl⟩ := List.exists_cons_of_ne_nil ht
    have hc : isSurlChar c = true := hall c (List.mem_cons_self c t')
    apply extractSurl_eq_path
    show findPathSurl ("https://terabox.com/s/".data ++ (c :: t') ++ suffix) =
      some (String.mk (c :: t'))
    have hpre : "https://terabox.com/s/".data =
        ['h', 't', 't', 'p', 's', ':', '/', '/', 't', 'e', 'r', 'a', 'b', 'o', 'x',
          '.', 'c', 'o', 'm', '/', 's', '/'] := by decide
    rw [hpre]
    simp only [List.cons_append, List.nil_append]
    simp +decide only [findPathSurl_skip]
    rw [findPathSurl_hit (c :: (t' ++ suffix)) (by simp [hasClassHead, hc])]
    rw [show c :: (t' ++ suffix) = (c :: t') ++ suffix from rfl,
      takeWhile_all (c :: t') suffix hall hsuf]
  · intro t ht hall
    obtain ⟨c, t', rfl⟩ := List.exists_cons_of_ne_nil ht
    have hc : isSurlChar c = true := hall c (List.mem_cons_self c t')
    have hpre : "https://terabox.com/sharing/link?surl=".data =
        ['h', 't', 't', 'p', 's', ':', '/', '/', 't', 'e', 'r', 'a', 'b', 'o', 'x',
          '.', 'c', 'o', 'm', '/', 's', 'h', 'a', 'r', 'i', 'n', 'g', '/', 'l',
          'i', 'n', 'k', '?', 's', 'u', 'r', 'l', '='] := by decide
    have hpath :
        findPathSurl ("https://terabox.com/sharing/link?surl=".data ++ (c :: t')) = none := by
      rw [hpre]
      simp only [List.cons_append, List.nil_append]
      simp +decide only [findPathSurl_skip]
      apply findPathSurl_none_noslash
      intro x hx
      simp only [List.mem_cons] at hx
      rcases hx with rfl | rfl | hx2
      · decide
      · decide
      · exact isSurlChar_ne_slash (hall x (List.mem_cons.mpr hx2))
    have hquery :
        findQuerySurl ("https://terabox.com/sharing/link?surl=".data ++ (c :: t')) =
          some (String.mk (c :: t')) := by
      rw [hpre]
      simp only [List.cons_append, List.nil_append]
      simp +decide only [findQuerySurl_skip]
      rw [findQuerySurl_hit (c :: t') (by simp [hasClassHead, hc])]
      rw [takeWhile_self_all (c :: t') hall]
    exact extractSurl_eq_query _ _ hpath hquery

/-- C5 witness: `extractSurl_spec` instantiated at the tokens "1abc123"
(path form) and "xyz" (query form) and at a URL matching neither pattern. -/
theorem extractSurl_spec_witness :
    extractSurl (String.mk ("https://terabox.com/s/".data ++ "1abc123".data ++ [])) =
        .ok (String.mk "1abc123".data) ∧
    extractSurl (String.mk ("https://terabox.com/sharing/link?surl=".data ++ "xyz".data)) =
        .ok (String.mk "xyz".data) ∧
    extractSurl "https://example.com/nothing" = .error "Invalid TeraBox URL" :=
  ⟨extractSurl_spec.2.2.2.1 "1abc123".data [] (by decide) (by decide)
      (by intro c hc; simp at hc),
    extractSurl_spec.2.2.2.2.1 "xyz".data (by decide) (by decide),
    extractSurl_spec.2.2.1 "https://example.com/nothing" (by decide) (by decide)⟩

/-- C9: resolveVendorBase (`getBaseUrl`) is total — every string input
yields exactly one member of the fixed set of known base URLs, the
substring tests run in fixed priority order (the first matching host wins),
and the canonical default is returned when no known substring matches. -/
theorem getBaseUrl_total :
    (∀ url, getBaseUrl url ∈
        ["https://www.1024tera.com", "https://www.1024terabox.com",
          "https://www.4funbox.com", "https://www.teraboxapp.com",
          "https://www.terabox.com"]) ∧
    (∀ url, jsIncludes url "1024tera.com" = false →
        jsIncludes url "1024terabox.com" = false →
        jsIncludes url "4funbox.com" = false →
        jsIncludes url "teraboxapp.com" = false →
        getBaseUrl url = "https://www.terabox.com") ∧
    (∀ url, jsIncludes url "1024tera.com" = true →
        getBaseUrl url = "https://www.1024tera.com") := by
  refine ⟨?_, ?_, ?_⟩
  · intro url
    unfold getBaseUrl
    split_ifs <;> simp
  · intro url h1 h2 h3 h4
    simp [getBaseUrl, h1, h2, h3, h4]
  · intro url h1
    simp [getBaseUrl, h1]

/-- C9 witness: `getBaseUrl_total` instantiated at a URL matching no known
host and at a URL containing the first host. -/
theorem getBaseUrl_total_witness :
    getBaseUrl "hello" = "https://www.terabox.com" ∧
    getBaseUrl "https://1024tera.com/s/1x" = "https://www.1024tera.com" :=
  ⟨getBaseUrl_total.2.1 "hello" (by decide) (by decide) (by decide) (by decide),
    getBaseUrl_total.2.2 "https://1024tera.com/s/1x" (by decide)⟩

/-- C6: in the vendor-direct strategy, once both upstream calls report a
zero status code, an empty file listing raises `'No files found'`, and a
successful result always carries a nonempty file list. -/
theorem tryDirectApi_empty :
    (∀ info listd, info.errno = .vInt 0 → listd.errno = .vInt 0 →
        listd.list.getD [] = [] →
        tryDirectApi info listd = .error "No files found") ∧
    (∀ info listd r, tryDirectApi info listd = .ok r →
        ∃ fs si, r.data = .files fs si ∧ fs ≠ []) := by
  constructor
  · intro info listd h1 h2 h3
    simp [tryDirectApi, h1, h2, h3]
  · intro info listd r h
    simp only [tryDirectApi] at h
    split_ifs at h with h1 h2 h3
    rw [Except.ok.injEq] at h
    subst h
    exact ⟨_, _, rfl, fun hnil => h3 (by simp [hnil])⟩

/-- C6 witness: `tryDirectApi_empty` instantiated at an empty listing and
at a one-record listing. -/
theorem tryDirectApi_empty_witness :
    tryDirectApi { errno := .vInt 0 } { errno := .vInt 0, list := some [] } =
        .error "No files found" ∧
    (∃ fs si,
      (StratResult.mk true
        (.files [{ fs_id := "undefined", filename := .vUndef, size := .vUndef,
                   sizeFormatted := "Unknown", isDir := .vBool false, dlink := .vNull,
                   thumb := .vNull }]
          (some { shareid := .vUndef, uk := .vUndef, sign := .vUndef,
                  timestamp := .vUndef }))
        "direct").data = .files fs si ∧ fs ≠ []) :=
  ⟨tryDirectApi_empty.1 { errno := .vInt 0 } { errno := .vInt 0, list := some [] }
      (by decide) (by decide) (by decide),
    tryDirectApi_empty.2 { errno := .vInt 0 } { errno := .vInt 0, list := some [{}] } _
      (by decide)⟩

/-- C7: a `/api/get` request with no `url` query parameter is answered with
`{success:false, error:"URL parameter required"}` and the same fixed
response is produced whatever the orchestrator would have done — the
orchestrator is never invoked (the invocation flag is false). -/
theorem apiGet_missing_url :
    ∀ run, apiGetHandler none run =
        ({ status := 200, body := .simpleError "URL parameter required" }, false) ∧
      bodySuccess (.simpleError "URL parameter required") = false := by
  intro run
  exact ⟨rfl, rfl⟩

/-- C8: every outcome of the `/api/get` handler — strategy success, total
exhaustion, or an error escaping the orchestrator — is answered with HTTP
status 200, and the JSON body carries its `success` flag (false in both
failure shapes); no failure is signalled through a non-200 status. -/
theorem apiGet_always_200 :
    (∀ url run, (apiGetHandler url run).1.status = 200) ∧
    (∀ u r, u ≠ "" → apiGetHandler (some u) (.completes (.ok r)) =
        ({ status := 200, body := .fromOrch (.ok r) }, true)) ∧
    (∀ u e ds, u ≠ "" →
        apiGetHandler (some u) (.completes (.failed e ds)) =
          ({ status := 200, body := .fromOrch (.failed e ds) }, true) ∧
        bodySuccess (.fromOrch (.failed e ds)) = false) ∧
    (∀ u m, u ≠ "" →
        apiGetHandler (some u) (.throwsMsg m) =
          ({ status := 200, body := .simpleError m }, true) ∧
        bodySuccess (.simpleError m) = false) := by
  refine ⟨?_, ?_, ?_, ?_⟩
  · intro url run
    cases url with
    | none => rfl
    | some u =>
        cases run with
        | completes o => by_cases h : u = "" <;> simp [apiGetHandler, h]
        | throwsMsg m => by_cases h : u = "" <;> simp [apiGetHandler, h]
  · intro u r h
    simp [apiGetHandler, h]
  · intro u e ds h
    exact ⟨by simp [apiGetHandler, h], rfl⟩
  · intro u m h
    exact ⟨by simp [apiGetHandler, h], rfl⟩

/-- C8 witness: `apiGet_always_200` instantiated at the nonempty url "u". -/
theorem apiGet_always_200_witness :
    apiGetHandler (some "u")
        (.completes (.ok { success := true, data := .files [] none, source := "s" })) =
      ({ status := 200,
         body := .fromOrch (.ok { success := true, data := .files [] none, source := "s" }) },
        true) ∧
    (apiGetHandler (some "u") (.completes (.failed "All methods failed" [])) =
        ({ status := 200, body := .fromOrch (.failed "All methods failed" []) }, true) ∧
      bodySuccess (.fromOrch (.failed "All methods failed" [])) = false) ∧
    (apiGetHandler (some "u") (.throwsMsg "boom") =
        ({ status := 200, body := .simpleError "boom" }, true) ∧
      bodySuccess (.simpleError "boom") = false) :=
  ⟨apiGet_always_200.2.1 "u" _ (by decide),
    apiGet_always_200.2.2.1 "u" "All methods failed" [] (by decide),
    apiGet_always_200.2.2.2 "u" "boom" (by decide)⟩

/-! ## Orchestrator lemmas -/

theorem succeeds_none_returns {r : StratResult}
    (h : (Attempt.returns r).succeeds = none) : r.success = false := by
  cases hsb : r.success with
  | false => rfl
  | true => simp [Attempt.succeeds, hsb] at h

/-- Source tag of every successful single-file result of the scrape tail. -/
theorem tryPageScrapeSingle_source {html : String} {r : StratResult}
    (h : tryPageScrapeSingle html = .ok r) : r.source = "scrape" := by
  cases hfn : findKeyQuoted fnKey html.data with
  | none => simp [tryPageScrapeSingle, hfn] at h
  | some fnCap =>
      cases hfs : findKeyDigits fsKey html.data with
      | none => simp [tryPageScrapeSingle, hfn, hfs] at h
      | some fsCap =>
          simp only [tryPageScrapeSingle, hfn, hfs] at h
          rw [Except.ok.injEq] at h
          subst h
          rfl

/-- C1: the orchestrator runs the four strategies strictly in order and
short-circuits on the first result flagged successful: whenever strategy i
is the first whose attempt succeeds, that exact result object is returned
for every possible behaviour of the later strategies (so they are never
consulted), and each real strategy only ever produces successful results
tagged with its own `source` identity. -/
theorem getTeraboxData_first_success :
    (∀ o2 o3 o4 r, r.success = true →
        getTeraboxData (.returns r) o2 o3 o4 = .ok r) ∧
    (∀ o1 o3 o4 r, o1.succeeds = none → r.success = true →
        getTeraboxData o1 (.returns r) o3 o4 = .ok r) ∧
    (∀ o1 o2 o4 r, o1.succeeds = none → o2.succeeds = none → r.success = true →
        getTeraboxData o1 o2 (.returns r) o4 = .ok r) ∧
    (∀ o1 o2 o3 r, o1.succeeds = none → o2.succeeds = none → o3.succeeds = none →
        r.success = true → getTeraboxData o1 o2 o3 (.returns r) = .ok r) ∧
    (∀ resp r, tryNepCoderApi resp = .ok r → r.source = "nepcoderdevs") ∧
    (∀ resp r, tryUdayApi resp = .ok r → r.source = "udayscripts") ∧
    (∀ info listd r, tryDirectApi info listd = .ok r → r.source = "direct") ∧
    (∀ jp html r, tryPageScrape jp html = .ok r → r.source = "scrape") := by
  refine ⟨?_, ?_, ?_, ?_, ?_, ?_, ?_, ?_⟩
  · intro o2 o3 o4 r hr
    simp [getTeraboxData, tryStep, hr]
  · intro o1 o3 o4 r h1 hr
    cases o1 with
    | raises m1 => simp [getTeraboxData, tryStep, hr]
    | returns r1 =>
        have h1f := succeeds_none_returns h1
        simp [getTeraboxData, tryStep, h1f, hr]
  · intro o1 o2 o4 r h1 h2 hr
    cases o1 with
    | raises m1 =>
        cases o2 with
        | raises m2 => simp [getTeraboxData, tryStep, hr]
        | returns r2 =>
            have h2f := succeeds_none_returns h2
            simp [getTeraboxData, tryStep, h2f, hr]
    | returns r1 =>
        have h1f := succeeds_none_returns h1
        cases o2 with
        | raises m2 => simp [getTeraboxData, tryStep, h1f, hr]
        | returns r2 =>
            have h2f := succeeds_none_returns h2
            simp [getTeraboxData, tryStep, h1f, h2f, hr]
  · intro o1 o2 o3 r h1 h2 h3 hr
    cases o1 with
    | raises m1 =>
        cases o2 with
        | raises m2 =>
            cases o3 with
            | raises m3 => simp [getTeraboxData, tryStep, hr]
            | returns r3 =>
                have h3f := succeeds_none_returns h3
                simp [getTeraboxData, tryStep, h3f, hr]
        | returns r2 =>
            have h2f := succeeds_none_returns h2
            cases o3 with
            | raises m3 => simp [getTeraboxData, tryStep, h2f, hr]
            | returns r3 =>
                have h3f := succeeds_none_returns h3
                simp [getTeraboxData, tryStep, h2f, h3f, hr]
    | returns r1 =>
        have h1f := succeeds_none_returns h1
        cases o2 with
        | raises m2 =>
            cases o3 with
            | raises m3 => simp [getTeraboxData, tryStep, h1f, hr]
            | returns r3 =>
                have h3f := succeeds_none_returns h3
                simp [getTeraboxData, tryStep, h1f, h3f, hr]
        | returns r2 =>
            have h2f := succeeds_none_returns h2
            cases o3 with
            | raises m3 => simp [getTeraboxData, tryStep, h1f, h2f, hr]
            | returns r3 =>
                have h3f := succeeds_none_returns h3
                simp [getTeraboxData, tryStep, h1f, h2f, h3f, hr]
  · intro resp r h
    cases resp with
    | none => simp [tryNepCoderApi] at h
    | some d =>
        simp only [tryNepCoderApi] at h
        split_ifs at h with hc
        rw [Except.ok.injEq] at h
        subst h
        rfl
  · intro resp r h
    cases resp with
    | none => simp [tryUdayApi] at h
    | some d =>
        simp only [tryUdayApi] at h
        split_ifs at h with hc
        rw [Except.ok.injEq] at h
        subst h
        rfl
  · intro info listd r h
    simp only [tryDirectApi] at h
    split_ifs at h with h1 h2 h3
    rw [Except.ok.injEq] at h
    subst h
    rfl
  · intro jp html r h
    simp only [tryPageScrape] at h
    split_ifs at h with hv
    · cases hlm : findListMatch html.data with
      | none =>
          simp only [hlm] at h
          exact tryPageScrapeSingle_source h
      | some cap =>
          simp only [hlm] at h
          cases hjp : jp (String.mk cap) with
          | none =>
              simp only [hjp] at h
              exact absurd h (by simp)
          | some list =>
              simp only [hjp] at h
              split_ifs at h with hlen
              · rw [Except.ok.injEq] at h
                subst h
                rfl
              · exact tryPageScrapeSingle_source h

/-- C1 witness: strategy 2 is the first to succeed with a mocked result;
the orchestrator returns exactly that result whatever strategies 3 and 4
would do, and a successful mirror-API result carries its own source tag. -/
theorem getTeraboxData_first_success_witness :
    getTeraboxData (.raises "a")
        (.returns { success := true, data := .files [] none, source := "udayscripts" })
        (.raises "c") (.raises "d") =
      .ok { success := true, data := .files [] none, source := "udayscripts" } ∧
    (StratResult.mk true
        (.single { filename := .vStr "x", size := .vInt 0, sizeFormatted := "Unknown",
                   thumb := .vNull, downloadUrl := .vNull, resolutions := none,
                   fastDownload := .vNull, hdVideo := .vNull })
        "nepcoderdevs").source = "nepcoderdevs" :=
  ⟨getTeraboxData_first_success.2.1 (.raises "a") (.raises "c") (.raises "d")
      { success := true, data := .files [] none, source := "udayscripts" } (by decide) rfl,
    getTeraboxData_first_success.2.2.2.2.1 (some { file_name := .vStr "x" }) _ (by decide)⟩

/-- The message a `try` block of `getTeraboxData` appends for an attempt:
only a raised error is logged (tagged with the strategy identity); a
returned non-successful result is dropped silently. -/
def taggedLog : String × Attempt → Option String
  | (tag, .raises m) => some (tag ++ m)
  | (_, .returns _) => none

/-- C2 counterexample: all four strategies fail by returning results not
flagged successful (without raising); the code appends nothing to the error
log, so the exhaustion payload's `details` is empty — not four tagged
entries as the claim states. -/
theorem getTeraboxData_error_log_cex :
    getTeraboxData
        (.returns { success := false, data := .files [] none, source := "m1" })
        (.returns { success := false, data := .files [] none, source := "m2" })
        (.returns { success := false, data := .files [] none, source := "m3" })
        (.returns { success := false, data := .files [] none, source := "m4" }) =
      .failed "All methods failed" [] ∧
    ([] : List String).length = 0 := by
  exact ⟨rfl, rfl⟩

/-- C2 (amended): the orchestrator appends a strategy's error message,
prefixed with its identity tag, exactly for the attempts that raise; an
attempt returning a result not flagged successful advances to the next
strategy without logging anything.  Consequently, when none of the four
attempts succeeds the failure payload's `details` lists the tagged messages
of precisely the raising attempts in strategy order, and when all four
raise it contains exactly four entries in strategy order. -/
theorem getTeraboxData_error_log :
    (∀ o1 o2 o3 o4, o1.succeeds = none → o2.succeeds = none → o3.succeeds = none →
        o4.succeeds = none →
        getTeraboxData o1 o2 o3 o4 =
          .failed "All methods failed"
            (([("API1: ", o1), ("API2: ", o2), ("Direct: ", o3),
                ("Scrape: ", o4)]).filterMap taggedLog)) ∧
    (∀ m1 m2 m3 m4,
        getTeraboxData (.raises m1) (.raises m2) (.raises m3) (.raises m4) =
          .failed "All methods failed"
            ["API1: " ++ m1, "API2: " ++ m2, "Direct: " ++ m3, "Scrape: " ++ m4]) := by
  constructor
  · intro o1 o2 o3 o4 h1 h2 h3 h4
    cases o1 with
    | raises m1 =>
        cases o2 with
        | raises m2 =>
            cases o3 with
            | raises m3 =>
                cases o4 with
                | raises m4 => simp [getTeraboxData, tryStep, taggedLog]
                | returns r4 =>
                    have h4f := succeeds_none_returns h4
                    simp [getTeraboxData, tryStep, taggedLog, h4f]
            | returns r3 =>
                have h3f := succeeds_none_returns h3
                cases o4 with
                | raises m4 => simp [getTeraboxData, tryStep, taggedLog, h3f]
                | returns r4 =>
                    have h4f := succeeds_none_returns h4
                    simp [getTeraboxData, tryStep, taggedLog, h3f, h4f]
        | returns r2 =>
            have h2f := succeeds_none_returns h2
            cases o3 with
            | raises m3 =>
                cases o4 with
                | raises m4 => simp [getTeraboxData, tryStep, taggedLog, h2f]
                | returns r4 =>
                    have h4f := succeeds_none_returns h4
                    simp [getTeraboxData, tryStep, taggedLog, h2f, h4f]
            | returns r3 =>
                have h3f := succeeds_none_returns h3
                cases o4 with
                | raises m4 => simp [getTeraboxData, tryStep, taggedLog, h2f, h3f]
                | returns r4 =>
                    have h4f := succeeds_none_returns h4
                    simp [getTeraboxData, tryStep, taggedLog, h2f, h3f, h4f]
    | returns r1 =>
        have h1f := succeeds_none_returns h1
        cases o2 with
        | raises m2 =>
            cases o3 with
            | raises m3 =>
                cases o4 with
                | raises m4 => simp [getTeraboxData, tryStep, taggedLog, h1f]
                | returns r4 =>
                    have h4f := succeeds_none_returns h4
                    simp [getTeraboxData, tryStep, taggedLog, h1f, h4f]
            | returns r3 =>
                have h3f := succeeds_none_returns h3
                cases o4 with
                | raises m4 => simp [getTeraboxData, tryStep, taggedLog, h1f, h3f]
                | returns r4 =>
                    have h4f := succeeds_none_returns h4
                    simp [getTeraboxData, tryStep, taggedLog, h1f, h3f, h4f]
        | returns r2 =>
            have h2f := succeeds_none_returns h2
            cases o3 with
            | raises m3 =>
                cases o4 with
                | raises m4 => simp [getTeraboxData, tryStep, taggedLog, h1f, h2f]
                | returns r4 =>
                    have h4f := succeeds_none_returns h4
                    simp [getTeraboxData, tryStep, taggedLog, h1f, h2f, h4f]
            | returns r3 =>
                have h3f := succeeds_none_returns h3
                cases o4 with
                | raises m4 => simp [getTeraboxData, tryStep, taggedLog, h1f, h2f, h3f]
                | returns r4 =>
                    have h4f := succeeds_none_returns h4
                    simp [getTeraboxData, tryStep, taggedLog, h1f, h2f, h3f, h4f]
  · intro m1 m2 m3 m4
    rfl

/-- C2 witness: `getTeraboxData_error_log` instantiated at a mixed failing
sequence — strategies 1 and 3 return non-successful results (not logged),
strategies 2 and 4 raise (logged with their tags, in order). -/
theorem getTeraboxData_error_log_witness :
    getTeraboxData
        (.returns { success := false, data := .files [] none, source := "x" })
        (.raises "boom2")
        (.returns { success := false, data := .files [] none, source := "y" })
        (.raises "boom4") =
      .failed "All methods failed"
        (([("API1: ",
            Attempt.returns { success := false, data := .files [] none, source := "x" }),
           ("API2: ", Attempt.raises "boom2"),
           ("Direct: ",
            Attempt.returns { success := false, data := .files [] none, source := "y" }),
           ("Scrape: ", Attempt.raises "boom4")]).filterMap taggedLog) :=
  getTeraboxData_error_log.1
    (.returns { success := false, data := .files [] none, source := "x" })
    (.raises "boom2")
    (.returns { success := false, data := .files [] none, source := "y" })
    (.raises "boom4") (by decide) (by decide) (by decide) (by decide)

/-! ## C3: the page-scrape fall-through behaviour -/

/-- Modelled `JSON.parse` oracle for the counterexample page: the only
capture that page produces is "[\x7d]", on which `JSON.parse` throws, so the
oracle answers `none`. -/
def cexParse : String → Option (List FileRec) := fun _ => none

/-- A page whose embedded "list" capture is invalid JSON while the
single-file filename and id regexes would both match. -/
def cexHtml : String := "\x7b\"list\":[\x7d],\"server_filename\":\"abc\",\"fs_id\":123\x7d"

/-- C3 counterexample: on `cexHtml` the verification-marker check passes
and the "list" capture "[\x7d]" fails to parse; the claim says the strategy
then falls through to single-file extraction (which would succeed here with
filename "abc" and id "123"), but the code raises `'Parse error'` instead. -/
theorem tryPageScrape_parse_cex :
    jsIncludes cexHtml "verify" = false ∧
    jsIncludes cexHtml "验证" = false ∧
    findListMatch cexHtml.data = some "[\x7d]".data ∧
    cexParse (String.mk "[\x7d]".data) = none ∧
    tryPageScrape cexParse cexHtml = .error "Parse error" ∧
    tryPageScrapeSingle cexHtml =
      .ok { success := true
            data := .files
              [{ fs_id := "123", filename := .vStr "abc", size := .vInt 0,
                 sizeFormatted := "Unknown", isDir := .vUndef, dlink := .vNull,
                 thumb := .vUndef }] none
            source := "scrape" } := by
  decide

/-- C3 (amended): in the page-scrape strategy, after the
verification-marker check passes: a "list" capture that fails to parse
raises `'Parse error'` (no fall-through); a capture parsing to an empty
list — or no capture at all — falls through to single-file extraction;
single-file extraction succeeds exactly when the filename and numeric id
regexes both match, with size defaulting to 0 (formatted as 'Unknown') when
the size regex does not match and backslashes stripped from the extracted
filename and download link. -/
theorem tryPageScrape_fallthrough (jp : String → Option (List FileRec)) (html : String)
    (hv : jsIncludes html "verify" = false) (hv2 : jsIncludes html "验证" = false) :
    (∀ cap, findListMatch html.data = some cap → jp (String.mk cap) = none →
        tryPageScrape jp html = .error "Parse error") ∧
    (∀ cap, findListMatch html.data = some cap → jp (String.mk cap) = some [] →
        tryPageScrape jp html = tryPageScrapeSingle html) ∧
    (findListMatch html.data = none →
        tryPageScrape jp html = tryPageScrapeSingle html) ∧
    (∀ fnCap fsCap, findKeyQuoted fnKey html.data = some fnCap →
        findKeyDigits fsKey html.data = some fsCap →
        findKeyDigits sizeKey html.data = none →
        tryPageScrapeSingle html =
          .ok { success := true
                data := .files
                  [{ fs_id := String.mk fsCap
                     filename := .vStr (String.mk (stripBackslash fnCap))
                     size := .vInt 0, sizeFormatted := "Unknown"
                     dlink := scrapeDlink html }] none
                source := "scrape" }) ∧
    ((∃ r, tryPageScrapeSingle html = .ok r) ↔
        (findKeyQuoted fnKey html.data).isSome ∧
          (findKeyDigits fsKey html.data).isSome) := by
  have hcond : (jsIncludes html "verify" || jsIncludes html "验证") = false := by
    simp [hv, hv2]
  refine ⟨?_, ?_, ?_, ?_, ?_⟩
  · intro cap hlm hjp
    simp [tryPageScrape, hcond, hlm, hjp]
  · intro cap hlm hjp
    simp [tryPageScrape, hcond, hlm, hjp]
  · intro hlm
    simp [tryPageScrape, hcond, hlm]
  · intro fnCap fsCap hfn hfs hsz
    simp [tryPageScrapeSingle, hfn, hfs, scrapeSingleOk, hsz]
  · constructor
    · rintro ⟨r, hr⟩
      cases hfn : findKeyQuoted fnKey html.data with
      | none => simp [tryPageScrapeSingle, hfn] at hr
      | some f =>
          cases hfs : findKeyDigits fsKey html.data with
          | none => simp [tryPageScrapeSingle, hfn, hfs] at hr
          | some g => simp [hfn, hfs]
    · rintro ⟨h1, h2⟩
      obtain ⟨f, hfn⟩ := Option.isSome_iff_exists.mp h1
      obtain ⟨g, hfs⟩ := Option.isSome_iff_exists.mp h2
      exact ⟨scrapeSingleOk html f g, by simp [tryPageScrapeSingle, hfn, hfs]⟩

/-- A `JSON.parse` oracle answering the empty array for the capture "[]". -/
def scrapeParseEmpty : String → Option (List FileRec) :=
  fun s => if s = "[]" then some [] else none

/-- A page whose "list" capture parses to the empty list and whose
single-file regexes match, the filename capture containing a backslash. -/
def scrapeWitnessHtml : String :=
  "\x7b\"list\": [] ,\"server_filename\":\"a\\b\",\"fs_id\":77\x7d"

/-- C3 witness: `tryPageScrape_fallthrough` instantiated at a page with an
empty parsed list — the strategy falls through to single-file extraction,
which succeeds with the backslash stripped from the filename, size 0 and no
download link. -/
theorem tryPageScrape_fallthrough_witness :
    tryPageScrape scrapeParseEmpty scrapeWitnessHtml =
        tryPageScrapeSingle scrapeWitnessHtml ∧
    tryPageScrapeSingle scrapeWitnessHtml =
      .ok { success := true
            data := .files
              [{ fs_id := "77", filename := .vStr "ab", size := .vInt 0,
                 sizeFormatted := "Unknown", isDir := .vUndef, dlink := .vNull,
                 thumb := .vUndef }] none
            source := "scrape" } :=
  ⟨(tryPageScrape_fallthrough scrapeParseEmpty scrapeWitnessHtml (by decide)
        (by decide)).2.1 "[]".data (by decide) (by decide),
    ((tryPageScrape_fallthrough scrapeParseEmpty scrapeWitnessHtml (by decide)
        (by decide)).2.2.2.1 "a\\b".data "77".data (by decide) (by decide)
        (by decide)).trans (by decide)⟩
